import Mathlib

/-!
Shallow embedding of the django-cropduster image pipeline:
the resize engine and animated-image handler of cropduster/utils/image.py,
the geometry resolution of cropduster/models.py (ImageSize), and the
regeneration driver of cropduster/management/commands/regenerate_thumbs.py.

Machine arithmetic notes: the Python code runs under
from __future__ import division, so / is true division; quantities that
Python holds in floats are modelled with Rat where every intermediate value
of the source is exactly representable (ratios i/8 have power-of-two
denominators, and 1.5 * n is exact), so Rat is a faithful model there.
Python int() truncates toward zero; on the nonnegative values that occur it
is the floor.
-/

namespace Cropduster

/-- The resampling filters of PIL used by the source. -/
inductive ResampleFilter
  | nearest
  | bicubic
  | antialias
deriving DecidableEq, Repr

/-- A PIL image, reduced to the attributes the embedded code reads:
size (width, height), the declared format, and whether its info dict
carries a truthy extension marker (the animated-gif marker). -/
structure PILImage where
  width : Nat
  height : Nat
  format : Option String
  infoExtension : Bool
deriving DecidableEq, Repr

/-- Image operations performed by the resize engine, recorded as a trace so
that theorems can observe which crops and resizes the code performs. -/
inductive ImgOp
  | crop (left upper right lower : Nat)
  | resize (w h : Nat) (f : ResampleFilter)
deriving DecidableEq, Repr

/-- Result of a PIL resize call: new dimensions, no file format, info
carried over. -/
def PILImage.resized (im : PILImage) (w h : Nat) : PILImage :=
  ⟨w, h, none, im.infoExtension⟩

/-- Embedding of smart_resize (cropduster/utils/image.py, lines 185-233).
hqBicubic models the Pillow >= 2.7.0 capability check.  The returned trace
lists the PIL calls made on the image path, in order.  Two oddities of the
source are reproduced faithfully: the pre-crop branch fires when
orig_w % 8 == 0 or orig_h % 8 == 0 (the source condition is
if not crop_w or not crop_h), the crop result is discarded (im.crop is not
assigned, so im.size is unchanged afterwards), and the coarse resize uses
int(orig_w * ratio) for both axes. -/
def smart_resize (hqBicubic : Bool) (im : PILImage) (final_w final_h : Nat) :
    PILImage × List ImgOp :=
  let orig_w := im.width
  let orig_h := im.height
  if orig_w ≤ final_w ∧ orig_h ≤ final_h then
    (im, [])
  else if hqBicubic then
    (im.resized final_w final_h, [ImgOp.resize final_w final_h ResampleFilter.bicubic])
  else
    -- scaled_w >= goal_w and scaled_h >= goal_h, with scaled = orig * i / 8 and
    -- goal = final * 1.5; multiplying both sides by 8 keeps it in Nat exactly.
    match (List.range' 1 7).find? (fun i =>
        decide (12 * final_w ≤ orig_w * i) && decide (12 * final_h ≤ orig_h * i)) with
    | none =>
        (im.resized final_w final_h, [ImgOp.resize final_w final_h ResampleFilter.antialias])
    | some i =>
        let crop_w := orig_w % 8
        let crop_h := orig_h % 8
        let cropOps : List ImgOp :=
          if crop_w = 0 ∨ crop_h = 0 then
            [ImgOp.crop (crop_w / 2) (crop_h / 2)
              (orig_w - (crop_w + 1) / 2) (orig_h - (crop_h + 1) / 2)]
          else []
        -- int(orig_w * ratio) twice: the source passes orig_w on both axes.
        let coarse := orig_w * i / 8
        (im.resized final_w final_h,
         cropOps ++ [ImgOp.resize coarse coarse ResampleFilter.nearest,
                     ImgOp.resize final_w final_h ResampleFilter.antialias])

/-- Python int() on a rational: truncation toward zero. -/
def pyInt (q : Rat) : Int :=
  if 0 ≤ q then q.floor else q.ceil

/-- Python 2 round(x, 2): two decimal places, halves away from zero
(here only ever applied to nonnegative values, where it is
floor(100 * x + 1/2) / 100). -/
def round2 (q : Rat) : Rat :=
  ((q * 100 + 1 / 2).floor : Rat) / 100

/-- Python truthiness of an optional nonnegative integer field:
None and 0 are falsy. -/
def optTruthy (o : Option Nat) : Bool :=
  match o with
  | none => false
  | some n => decide (0 < n)

/-- Python truthiness of an optional float field: None and 0.0 are falsy. -/
def ratTruthy (o : Option Rat) : Bool :=
  match o with
  | none => false
  | some q => decide (q ≠ 0)

/-- The Python runtime errors the embedded code can raise. -/
inductive PyErr
  | typeErrorNotCallable
  | attributeError (attr : String)
deriving DecidableEq, Repr

/-- The ImageSize model (cropduster/models.py, lines 41-101), reduced to the
fields its embedded methods read.  width and height are
PositiveIntegerField (null allowed), aspect_ratio a FloatField
(null allowed), modelled with Rat. -/
structure ImageSize where
  name : String
  slug : String
  height : Option Nat
  width : Option Nat
  aspect_ratio : Option Rat
  auto_crop : Bool
  retina : Bool
deriving DecidableEq, Repr

/-- Embedding of ImageSize.get_height (models.py, lines 62-66):
if self.height is None and self.width and self.aspect_ratio, return
int(self.width / self.aspect_ratio), else return self.height. -/
def ImageSize.get_height (s : ImageSize) : Option Int :=
  if s.height = none ∧ optTruthy s.width ∧ ratTruthy s.aspect_ratio then
    some (pyInt ((s.width.getD 0 : Rat) / s.aspect_ratio.getD 0))
  else
    s.height.map (fun n => (n : Int))

/-- Embedding of ImageSize.get_width (models.py, lines 68-72):
if self.width is None and self.height and self.aspect_ratio, return
int(self.height * self.aspect_ratio), else return self.width. -/
def ImageSize.get_width (s : ImageSize) : Option Int :=
  if s.width = none ∧ optTruthy s.height ∧ ratTruthy s.aspect_ratio then
    some (pyInt ((s.height.getD 0 : Rat) * s.aspect_ratio.getD 0))
  else
    s.width.map (fun n => (n : Int))

/-- Embedding of ImageSize.get_aspect_ratio (models.py, lines 74-78). -/
def ImageSize.get_aspect_ratio (s : ImageSize) : Option Rat :=
  if s.aspect_ratio = none ∧ optTruthy s.height ∧ optTruthy s.width then
    some (round2 ((s.width.getD 0 : Rat) / (s.height.getD 0 : Rat)))
  else
    s.aspect_ratio

/-- Embedding of ImageSize.get_dimensions (models.py, lines 80-81):
return (self.get_width(), self.get_height(), self.aspect_ratio()).
self.aspect_ratio is a FloatField value (a float or None), not a method, so
the trailing call raises TypeError on every instance. -/
def ImageSize.get_dimensions (_s : ImageSize) :
    Except PyErr (Option Int × Option Int × Option Rat) :=
  Except.error PyErr.typeErrorNotCallable

/-- Embedding of ImageSize.get_retina (models.py, lines 83-87): doubles the
width and height of get_dimensions when they are not None, propagating any
exception get_dimensions raises. -/
def ImageSize.get_retina (s : ImageSize) :
    Except PyErr (Option Int × Option Int × Option Rat) :=
  match s.get_dimensions with
  | Except.error e => Except.error e
  | Except.ok (w, h, a) => Except.ok (w.map (· * 2), h.map (· * 2), a)

/-- Embedding of the attribute mutation in ImageSize.save (models.py,
lines 89-95): if not (self.height and self.width), aspect_ratio becomes 1,
else round(self.width / float(self.height), 2); then the row is persisted
(the returned value is the persisted state). -/
def ImageSize.save (s : ImageSize) : ImageSize :=
  if optTruthy s.height && optTruthy s.width then
    let r := round2 ((s.width.getD 0 : Rat) / (s.height.getD 0 : Rat))
    { s with aspect_ratio := some r }
  else
    { s with aspect_ratio := some 1 }

/-- Embedding of is_animated_gif (cropduster/utils/image.py, lines 120-122):
(im.format == GIF or not im.format) and info.get(extension). -/
def is_animated_gif (im : PILImage) : Bool :=
  (match im.format with
   | none => true
   | some s => s == "GIF" || s.isEmpty) && im.infoExtension

/-- Embedding of has_animated_gif_support (image.py, lines 125-126):
bool(CROPDUSTER_GIFSICLE_PATH or (numpy and scipy)); the three installation
capabilities are passed as flags. -/
def has_animated_gif_support (gifsicle numpy scipy : Bool) : Bool :=
  gifsicle || (numpy && scipy)

/-- What process_image returns on success: an in-memory processed frame, or
the reopened file it saved. -/
inductive ProcResult
  | frame (im : PILImage)
  | savedFile (path : String)
deriving DecidableEq, Repr

/-- Observable side effects of process_image, recorded in order. -/
inductive ProcEvent
  | warnedStatic
  | warnedNumpyQuality
  | readGifFrames
  | wroteGif (path : String)
  | savedStatic (path : String)
deriving DecidableEq, Repr

/-- Embedding of process_image (image.py, lines 129-182).  The frame list is
abstracted to its length: 1 for a static source and for the gifsicle
wrapper (images = [GifsicleImage(im)]), readFrameCount for the numpy
read_gif path.  callback models the per-frame transform on the PIL image.
An exception is modelled as Except.error with the message of the raise. -/
def process_image (gifsicle numpy scipy : Bool) (readFrameCount : Nat)
    (im : PILImage) (save_filename : Option String)
    (callback : PILImage → PILImage) :
    Except String (ProcResult × List ProcEvent) :=
  let is_animated := is_animated_gif im
  let events : List ProcEvent :=
    if is_animated then
      if !has_animated_gif_support gifsicle numpy scipy then
        [ProcEvent.warnedStatic]
      else if gifsicle then []
      else [ProcEvent.warnedNumpyQuality, ProcEvent.readGifFrames]
    else []
  let numFrames : Nat :=
    if is_animated && has_animated_gif_support gifsicle numpy scipy && !gifsicle then
      readFrameCount
    else 1
  if is_animated && save_filename.isNone then
    Except.error "Animated gifs must be saved on each processing."
  else
    match save_filename with
    | none => Except.ok (ProcResult.frame (callback im), events)
    | some p =>
        if is_animated && decide (1 < numFrames) then
          Except.ok (ProcResult.savedFile p, events ++ [ProcEvent.wroteGif p])
        else
          Except.ok (ProcResult.savedFile p, events ++ [ProcEvent.savedStatic p])

/-- The Size namedtuple of regenerate_thumbs.py, line 54:
(name, path, crop, width, height).  width and height come from
ImageSize rows where they are nullable. -/
structure Size where
  name : String
  path : String
  crop : Bool
  width : Option Nat
  height : Option Nat
deriving DecidableEq, Repr

/-- A regular file on disk: its byte length and an abstract content tag, so
that "the destination is unchanged" is expressible. -/
structure FileData where
  size : Nat
  content : Nat
deriving DecidableEq, Repr

/-- The file system as seen by resize_image: each path is either absent or a
regular file. -/
def FS : Type := String → Option FileData

/-- os.path.isfile(p) and os.stat(p).st_size > 0. -/
def fileExistsNonzero (fs : FS) (p : String) : Bool :=
  match fs p with
  | none => false
  | some d => decide (0 < d.size)

/-- Outcome of the try block of resize_image for one size (rescale followed
by thumbnail.save to the temp path): success with the encoded file, an
exception before the temp file is written (e.g. inside rescale), or an
exception after a partly written temp file. -/
inductive SizeOutcome
  | ok (d : FileData)
  | failBeforeWrite
  | failAfterWrite (d : FileData)
deriving DecidableEq, Repr

/-- Observable per-size events of resize_image, recorded in order. -/
inductive SizeEvent
  | skipped
  | wroteTmp (path : String)
  | renamedTmp (tmp dest : String)
  | errLogged
deriving DecidableEq, Repr

/-- State after processing one size: the file system, the events that
happened, and whether the operator answered n to the continue prompt
(raising SystemExit). -/
structure StepResult where
  fs : FS
  events : List SizeEvent
  aborted : Bool

/-- Embedding of one iteration of the size loop in Command.resize_image
(regenerate_thumbs.py, lines 129-163).  outcome is the oracle for the try
block (rescale + save), abortOnError the oracle for the continue prompt
answering n.  Directory creation (os.makedirs) touches no regular file and
is not recorded. -/
def resize_image_step (force : Bool) (outcome : Size → SizeOutcome)
    (abortOnError : Size → Bool) (fs : FS) (sz : Size) : StepResult :=
  if !force && fileExistsNonzero fs sz.path then
    ⟨fs, [SizeEvent.skipped], false⟩
  else
    let tmp := sz.path ++ ".tmp"
    match outcome sz with
    | SizeOutcome.ok d =>
        -- thumbnail.save(tmp_path), then os.rename(tmp_path, size.path)
        -- in the else clause of the try statement.
        ⟨fun p => if p = sz.path then some d else if p = tmp then none else fs p,
         [SizeEvent.wroteTmp tmp, SizeEvent.renamedTmp tmp sz.path],
         false⟩
    | SizeOutcome.failBeforeWrite =>
        ⟨fs, [SizeEvent.errLogged], abortOnError sz⟩
    | SizeOutcome.failAfterWrite d =>
        ⟨fun p => if p = tmp then some d else fs p,
         [SizeEvent.wroteTmp tmp, SizeEvent.errLogged],
         abortOnError sz⟩

/-- Embedding of Command.resize_image (regenerate_thumbs.py, lines 112-163):
folds resize_image_step over the size list, stopping once SystemExit was
raised. -/
def resize_image (force : Bool) (outcome : Size → SizeOutcome)
    (abortOnError : Size → Bool) (fs : FS) (sizes : List Size) : StepResult :=
  sizes.foldl
    (fun acc sz =>
      if acc.aborted then acc
      else
        let r := resize_image_step force outcome abortOnError acc.fs sz
        ⟨r.fs, acc.events ++ r.events, r.aborted⟩)
    ⟨fs, [], false⟩

/-- Embedding of Command.get_sizes (regenerate_thumbs.py, lines 165-192).
Line 180 reads cd_image.image.width and cd_image.image.height, attributes
that exist; line 181 then evaluates cd_image.size_set, but the Image model
(models.py) defines size (a ForeignKey) and size_sets (a ManyToMany), no
size_set attribute, so every call raises AttributeError before any Size
tuple is built or filtered.  Had the loop been reached, the tuple
construction at line 189 reads size.auto_size, which ImageSize also lacks
(its field is auto_crop, models.py line 58), raising AttributeError as
well. -/
def get_sizes (_origWidth _origHeight : Nat) (_stretch : Bool) :
    Except PyErr (List Size) :=
  Except.error (PyErr.attributeError "size_set")

theorem rat_floor_eq_intFloor (q : Rat) : q.floor = ⌊q⌋ := by
  rw [Rat.floor_def', Rat.floor_def]

theorem pyInt_of_nonneg {q : Rat} (h : 0 ≤ q) : pyInt q = ⌊q⌋ := by
  rw [pyInt, if_pos h, rat_floor_eq_intFloor]

theorem pyInt_natCast (n : Nat) : pyInt (n : Rat) = (n : Int) := by
  rw [pyInt_of_nonneg (by positivity)]
  exact Int.floor_natCast n

/-- C1: the claim says the fallback path pre-crops whenever the source width
or height is not a multiple of 8 so that both become multiples of 8.  The
code does the opposite (the condition if not crop_w or not crop_h fires
when a remainder is absent, and the crop result is discarded anyway): on a
100 x 100 source resized to 8 x 8, where 100 % 8 = 4, the operation trace
contains no crop and the coarse pass consumes the uncropped 100 x 100
image (coarse size 12 = 100 * 1 / 8). -/
theorem c1_no_precrop_when_remainder :
    (100 : Nat) % 8 ≠ 0 ∧
    smart_resize false ⟨100, 100, some "JPEG", false⟩ 8 8 =
      (⟨8, 8, none, false⟩,
       [ImgOp.resize 12 12 ResampleFilter.nearest,
        ImgOp.resize 8 8 ResampleFilter.antialias]) := by
  exact ⟨by decide, by decide⟩

/-- C2: the claim says the coarse pass scales both axes by the chosen
eighths ratio.  The code passes int(orig_w * ratio) for both axes, so on a
160 x 80 source resized to 8 x 8 (chosen ratio 2/8) the intermediate image
is 40 x 40 rather than the claimed 40 x 20: the resize the claim predicts,
with height 80 * 2 / 8 = 20, is absent from the trace.  The final pass
does return exactly the 8 x 8 target. -/
theorem c2_coarse_pass_squares_image :
    smart_resize false ⟨160, 80, some "JPEG", false⟩ 8 8 =
      (⟨8, 8, none, false⟩,
       [ImgOp.crop 0 0 160 80,
        ImgOp.resize 40 40 ResampleFilter.nearest,
        ImgOp.resize 8 8 ResampleFilter.antialias]) ∧
    ImgOp.resize (160 * 2 / 8) (80 * 2 / 8) ResampleFilter.nearest ∉
      (smart_resize false ⟨160, 80, some "JPEG", false⟩ 8 8).2 := by
  exact ⟨by decide, by decide⟩

/-- C9: smart_resize returns its input unchanged, performing no image
operation, whenever the source width and height are both at most the
target width and height. -/
theorem c9_smart_resize_noop (hq : Bool) (im : PILImage) (final_w final_h : Nat)
    (hw : im.width ≤ final_w) (hh : im.height ≤ final_h) :
    smart_resize hq im final_w final_h = (im, []) := by
  simp [smart_resize, hw, hh]

theorem c9_smart_resize_noop_witness :
    ((5 : Nat) ≤ 10 ∧ (7 : Nat) ≤ 10) ∧
    smart_resize true ⟨5, 7, some "PNG", false⟩ 10 10 = (⟨5, 7, some "PNG", false⟩, []) :=
  ⟨by decide, c9_smart_resize_noop true ⟨5, 7, some "PNG", false⟩ 10 10 (by decide) (by decide)⟩

/-- C5 counterexample: for the ImageSize with width 200, height absent and
explicit aspect_ratio 4, the claim predicts that after save() the derived
height is still int(200 / 4) = 50.  In fact save() resets aspect_ratio
to 1 (the branch if not (self.height and self.width) fires because height
is None), so get_height returns 200, not 50: the explicit ratio is
overwritten. -/
theorem c5_save_counterexample :
    (ImageSize.save ⟨"thumb", "thumb", none, some 200, some 4, false, false⟩).aspect_ratio =
      some 1 ∧
    ImageSize.get_height
        (ImageSize.save ⟨"thumb", "thumb", none, some 200, some 4, false, false⟩) ≠
      some (pyInt ((200 : Rat) / 4)) := by
  have hsave : ImageSize.save ⟨"thumb", "thumb", none, some 200, some 4, false, false⟩ =
      ⟨"thumb", "thumb", none, some 200, some 1, false, false⟩ := rfl
  have h50 : pyInt ((200 : Rat) / 4) = 50 := by
    rw [pyInt_of_nonneg (by norm_num)]; norm_num
  refine ⟨by rw [hsave], ?_⟩
  rw [hsave, h50]
  norm_num [ImageSize.get_height, optTruthy, ratTruthy, pyInt_natCast]
  rw [pyInt_of_nonneg (by norm_num)]
  norm_num

/-- C5 amended: ImageSize.save overwrites the aspect_ratio whenever height
and width are not both present and nonzero; for an ImageSize with a
positive width and no height the persisted ratio is 1, so the derived
height via get_height afterwards equals the width itself,
int(width / 1). -/
theorem c5_save_resets_ratio (s : ImageSize) (w : Nat)
    (hh : s.height = none) (hw : s.width = some w) (hpos : 0 < w) :
    (ImageSize.save s).aspect_ratio = some 1 ∧
    ImageSize.get_height (ImageSize.save s) = some (w : Int) := by
  have hsave : ImageSize.save s = { s with aspect_ratio := some 1 } := by
    simp [ImageSize.save, hh, optTruthy]
  refine ⟨by rw [hsave], ?_⟩
  rw [hsave]
  simp [ImageSize.get_height, hh, hw, optTruthy, ratTruthy, hpos, pyInt_natCast]

theorem c5_save_resets_ratio_witness :
    ((⟨"thumb", "thumb", none, some 200, some 4, false, false⟩ : ImageSize).height = none ∧
     (⟨"thumb", "thumb", none, some 200, some 4, false, false⟩ : ImageSize).width = some 200 ∧
     (0 : Nat) < 200) ∧
    (ImageSize.save ⟨"thumb", "thumb", none, some 200, some 4, false, false⟩).aspect_ratio =
        some 1 ∧
    ImageSize.get_height
        (ImageSize.save ⟨"thumb", "thumb", none, some 200, some 4, false, false⟩) =
      some ((200 : Nat) : Int) :=
  ⟨⟨rfl, rfl, by decide⟩,
   c5_save_resets_ratio ⟨"thumb", "thumb", none, some 200, some 4, false, false⟩ 200
     rfl rfl (by decide)⟩

/-- C6: the claim says get_retina returns the resolved width and height
doubled without raising an error.  get_dimensions evaluates
self.aspect_ratio(), a call on a FloatField value, so it raises TypeError
on every instance, and get_retina propagates it; here shown on a fully
resolvable retina size, width 100, height 50, aspect_ratio 2. -/
theorem c6_get_retina_raises :
    ImageSize.get_retina ⟨"lead", "lead", some 50, some 100, some 2, false, true⟩ =
      Except.error PyErr.typeErrorNotCallable := rfl

/-- C8: geometry resolution.  With width and height both present the
getters return exactly those values; with only a positive width and a
positive ratio, get_height returns floor(width / ratio); with only a
positive height and a positive ratio, get_width returns
floor(height * ratio). -/
theorem c8_geometry_resolution :
    (∀ (s : ImageSize) (w h : Nat), s.width = some w → s.height = some h →
        s.get_width = some (w : Int) ∧ s.get_height = some (h : Int)) ∧
    (∀ (s : ImageSize) (w : Nat) (r : Rat), s.width = some w → s.height = none →
        0 < w → 0 < r → s.aspect_ratio = some r →
        s.get_height = some ⌊(w : Rat) / r⌋) ∧
    (∀ (s : ImageSize) (h : Nat) (r : Rat), s.height = some h → s.width = none →
        0 < h → 0 < r → s.aspect_ratio = some r →
        s.get_width = some ⌊(h : Rat) * r⌋) := by
  refine ⟨?_, ?_, ?_⟩
  · intro s w h hw hh
    constructor
    · simp [ImageSize.get_width, hw]
    · simp [ImageSize.get_height, hh]
  · intro s w r hw hh hwpos hrpos hr
    have hq : 0 ≤ (w : Rat) / r := div_nonneg (by positivity) hrpos.le
    simp [ImageSize.get_height, hw, hh, hr, optTruthy, ratTruthy, hwpos, hrpos.ne',
      pyInt_of_nonneg hq]
  · intro s h r hh hw hhpos hrpos hr
    have hq : 0 ≤ (h : Rat) * r := mul_nonneg (by positivity) hrpos.le
    simp [ImageSize.get_width, hw, hh, hr, optTruthy, ratTruthy, hhpos, hrpos.ne',
      pyInt_of_nonneg hq]

theorem c8_geometry_resolution_witness :
    (ImageSize.get_width ⟨"a", "a", some 50, some 100, some 2, false, false⟩ =
        some ((100 : Nat) : Int) ∧
     ImageSize.get_height ⟨"a", "a", some 50, some 100, some 2, false, false⟩ =
        some ((50 : Nat) : Int)) ∧
    ((0 : Nat) < 200 ∧ (0 : Rat) < 4 ∧
     ImageSize.get_height ⟨"b", "b", none, some 200, some 4, false, false⟩ =
        some ⌊((200 : Nat) : Rat) / (4 : Rat)⌋) ∧
    ((0 : Nat) < 30 ∧ (0 : Rat) < 2 ∧
     ImageSize.get_width ⟨"c", "c", some 30, none, some 2, false, false⟩ =
        some ⌊((30 : Nat) : Rat) * (2 : Rat)⌋) :=
  ⟨c8_geometry_resolution.1 ⟨"a", "a", some 50, some 100, some 2, false, false⟩ 100 50 rfl rfl,
   ⟨by decide, by simp,
    c8_geometry_resolution.2.1 ⟨"b", "b", none, some 200, some 4, false, false⟩ 200 4
      rfl rfl (by decide) (by simp) rfl⟩,
   ⟨by decide, by simp,
    c8_geometry_resolution.2.2 ⟨"c", "c", some 30, none, some 2, false, false⟩ 30 2
      rfl rfl (by decide) (by simp) rfl⟩⟩

/-- C3: in the per-size loop of resize_image, a size is skipped (the file
system is returned unchanged with only a skipped event and no SystemExit)
exactly when force is false and the destination path holds a file of
nonzero byte length; in particular with force true the size is always
regenerated, whatever file sits at the destination. -/
theorem c3_skip_iff (force : Bool) (outcome : Size → SizeOutcome)
    (abortOnError : Size → Bool) (fs : FS) (sz : Size) :
    resize_image_step force outcome abortOnError fs sz =
        ⟨fs, [SizeEvent.skipped], false⟩ ↔
      (force = false ∧ fileExistsNonzero fs sz.path = true) := by
  constructor
  · intro h
    by_cases hc : (!force && fileExistsNonzero fs sz.path) = true
    · simpa [Bool.and_eq_true, Bool.not_eq_true'] using hc
    · exfalso
      cases ho : outcome sz <;> simp [resize_image_step, hc, ho] at h
  · rintro ⟨h1, h2⟩
    simp [resize_image_step, h1, h2]

/-- C4: the save of one size is atomic.  If the try block (rescale and
encode to the temp path destination + .tmp) raises, whether before or
after the temp file got written, the destination file of that size is
left exactly as it was and no rename event occurs; the rename to the
destination happens only in the exception-free else branch. -/
theorem c4_exception_leaves_destination (force : Bool) (outcome : Size → SizeOutcome)
    (abortOnError : Size → Bool) (fs : FS) (sz : Size)
    (h : outcome sz = SizeOutcome.failBeforeWrite ∨
         ∃ d, outcome sz = SizeOutcome.failAfterWrite d) :
    (resize_image_step force outcome abortOnError fs sz).fs sz.path = fs sz.path ∧
    ∀ tmp dest,
      SizeEvent.renamedTmp tmp dest ∉
        (resize_image_step force outcome abortOnError fs sz).events := by
  have hlen4 : (".tmp" : String).length = 4 := rfl
  have hne : sz.path ≠ sz.path ++ ".tmp" := by
    intro heq
    have hlen := congrArg String.length heq
    rw [String.length_append, hlen4] at hlen
    omega
  by_cases hc : (!force && fileExistsNonzero fs sz.path) = true
  · refine ⟨by simp [resize_image_step, hc], ?_⟩
    intro tmp dest
    simp [resize_image_step, hc]
  · rcases h with h | ⟨d, h⟩
    · refine ⟨by simp [resize_image_step, hc, h], ?_⟩
      intro tmp dest
      simp [resize_image_step, hc, h]
    · refine ⟨by simp [resize_image_step, hc, h, hne], ?_⟩
      intro tmp dest
      simp [resize_image_step, hc, h]

theorem c4_exception_leaves_destination_witness :
    ((fun _ : Size => SizeOutcome.failBeforeWrite) ⟨"t", "p", false, some 1, some 1⟩ =
        SizeOutcome.failBeforeWrite ∨
     ∃ d, (fun _ : Size => SizeOutcome.failBeforeWrite) ⟨"t", "p", false, some 1, some 1⟩ =
        SizeOutcome.failAfterWrite d) ∧
    ((resize_image_step false (fun _ => SizeOutcome.failBeforeWrite) (fun _ => false)
        (fun _ => none) ⟨"t", "p", false, some 1, some 1⟩).fs
          (Size.path ⟨"t", "p", false, some 1, some 1⟩) =
        (fun _ : String => (none : Option FileData)) (Size.path ⟨"t", "p", false, some 1, some 1⟩) ∧
     ∀ tmp dest,
       SizeEvent.renamedTmp tmp dest ∉
         (resize_image_step false (fun _ => SizeOutcome.failBeforeWrite) (fun _ => false)
           (fun _ => none) ⟨"t", "p", false, some 1, some 1⟩).events) :=
  ⟨Or.inl rfl,
   c4_exception_leaves_destination false (fun _ => SizeOutcome.failBeforeWrite)
     (fun _ => false) (fun _ => none) ⟨"t", "p", false, some 1, some 1⟩ (Or.inl rfl)⟩

/-- C7: called without a save filename, process_image raises exactly when
the source is detected as animated (is_animated_gif: format GIF or absent,
together with an extension marker in the info metadata); on a non-animated
source it returns the single frame produced by the per-frame callback,
with no warnings or writes. -/
theorem c7_process_image_no_save (gifsicle numpy scipy : Bool) (readFrameCount : Nat)
    (im : PILImage) (callback : PILImage → PILImage) :
    process_image gifsicle numpy scipy readFrameCount im none callback =
      (if is_animated_gif im then
        Except.error "Animated gifs must be saved on each processing."
       else Except.ok (ProcResult.frame (callback im), [])) := by
  by_cases h : is_animated_gif im <;> simp [process_image, h]

/-- C10: the claim says get_sizes returns a deduplicated set of Size
tuples, filtered by the stretch rule when both dimensions are defined.
The source can never build one: line 181 evaluates cd_image.size_set, an
attribute the Image model does not define (it has size and size_sets), so
AttributeError is raised on every call, before any filtering — and the
tuple construction at line 189 reads size.auto_size, which ImageSize also
lacks (only auto_crop).  Evaluated here for a 200 x 100 original with
stretch False. -/
theorem c10_get_sizes_raises :
    get_sizes 200 100 false = Except.error (PyErr.attributeError "size_set") := rfl

end Cropduster
